import Mathlib

/-!
Verification of the text-analysis enrichment core of `scrape_bsky.py`
(class `LocationExtractor` and the person-merge step of
`BlueskyPostScraper.get_user_posts`).

The Python code is shallowly embedded:
* texts are `String` (operations are written over `List Char`, the
  `data` field, so that everything kernel-evaluates);
* the spaCy named-entity model and the spaCy `Matcher` are external
  components: the pipeline is parameterised over their outputs
  (a list of `Ent` records and a list of matcher span texts);
* the few regular-expression shapes the source uses (`\b`, literals
  after `re.escape`, `\s+`, `[^)]*`, `(?:a|b)`, `(...)?`) are given an
  executable semantics by the small engine `RE` / `matchEnds` /
  `reSearch` below; `re.search` is "some start position admits a match".

Python names that start with an underscore are embedded without it
(`_is_likely_uk_location` becomes `is_likely_uk_location`, and
`_extract_person_role` becomes `extract_person_role`).
-/

namespace BskyScraper

/-! ## Character and string helpers (Python semantics, ASCII texts) -/

/-- Python regex `\w` word character (ASCII): alphanumeric or underscore. -/
def isWordChar (c : Char) : Bool :=
  c.isAlphanum || c = '_'

/-- Python whitespace (`\s`, `str.split()`, `str.strip()`) on ASCII:
space, tab, newline, carriage return, vertical tab, form feed. -/
def isPySpace (c : Char) : Bool :=
  c = ' ' || c = '\t' || c = '\n' || c = '\r' || c = '\x0b' || c = '\x0c'

/-- `str.lower()` on ASCII text, as a character-list map. -/
def lowerChars (t : List Char) : List Char :=
  t.map Char.toLower

/-- The slice `t[i : i+n]` of a character list. -/
def slice (t : List Char) (i n : Nat) : List Char :=
  (t.drop i).take n

/-- Does the slice of `t` starting at `i` equal `w` (length included)? -/
def sliceEq (t : List Char) (i : Nat) (w : List Char) : Bool :=
  decide (slice t i w.length = w)

/-- Python substring containment `needle in hay`. -/
def containsSub (needle hay : List Char) : Bool :=
  (List.range (hay.length + 1)).any (fun i => sliceEq hay i needle)

/-- Is the character at index `i` of `t` a word character
(out-of-range counts as a non-word position)? -/
def isWordAt (t : List Char) (i : Nat) : Bool :=
  match t.get? i with
  | some c => isWordChar c
  | none => false

/-- Python regex `\b`: position `i` lies on a word boundary of `t`
(exactly one of the two neighbouring positions holds a word character). -/
def boundaryAt (t : List Char) (i : Nat) : Bool :=
  match i with
  | 0 => isWordAt t 0
  | j + 1 => isWordAt t j != isWordAt t (j + 1)

/-- `str.strip()`: drop Python whitespace from both ends. -/
def pyStrip (l : List Char) : List Char :=
  ((l.dropWhile isPySpace).reverse.dropWhile isPySpace).reverse

/-- `str.isdigit()` (ASCII): non-empty and all characters digits. -/
def pyIsDigit (l : List Char) : Bool :=
  !l.isEmpty && l.all Char.isDigit

/-- Helper for `str.istitle()`: walk the characters remembering whether the
previous character was cased and whether a cased character was seen. -/
def istitleAux : List Char → Bool → Bool → Bool
  | [], _, found => found
  | c :: rest, prevCased, found =>
    if c.isUpper then
      if prevCased then false else istitleAux rest true true
    else if c.isLower then
      if prevCased then istitleAux rest true true else false
    else istitleAux rest false found

/-- `str.istitle()` (ASCII): uppercase letters only follow uncased
characters, lowercase letters only follow cased ones, and at least one
cased character occurs. -/
def pyIstitle (l : List Char) : Bool :=
  istitleAux l false false

/-- `len(s.split())`: number of maximal whitespace-free runs. -/
def splitCount : List Char → Bool → Nat
  | [], _ => 0
  | c :: rest, inWord =>
    if isPySpace c then splitCount rest false
    else if inWord then splitCount rest true
    else splitCount rest true + 1

/-! ## A small regular-expression engine

Exactly the constructs appearing in the source's patterns.  `matchEnds r
t i` is the list of positions at which `r` can finish a match of `t`
that starts at position `i`; `reSearch` is Python's `re.search` as a
Boolean (some start position admits a match). -/

inductive RE where
  | eps : RE
  | lit : List Char → RE
  | cls : (Char → Bool) → RE
  | wb : RE
  | seq : RE → RE → RE
  | alt : RE → RE → RE
  | opt : RE → RE
  | starCls : (Char → Bool) → RE
  | plusCls : (Char → Bool) → RE

/-- Length of the run of characters of `t` satisfying `p` starting at `i`. -/
def runLen (p : Char → Bool) (t : List Char) (i : Nat) : Nat :=
  ((t.drop i).takeWhile p).length

def matchEnds : RE → List Char → Nat → List Nat
  | RE.eps, _, i => [i]
  | RE.lit w, t, i => if sliceEq t i w then [i + w.length] else []
  | RE.cls p, t, i =>
    match t.get? i with
    | some c => if p c then [i + 1] else []
    | none => []
  | RE.wb, t, i => if boundaryAt t i then [i] else []
  | RE.seq a b, t, i => (matchEnds a t i).flatMap (fun j => matchEnds b t j)
  | RE.alt a b, t, i => matchEnds a t i ++ matchEnds b t i
  | RE.opt r, t, i => i :: matchEnds r t i
  | RE.starCls p, t, i => (List.range (runLen p t i + 1)).map (fun k => i + k)
  | RE.plusCls p, t, i => (List.range (runLen p t i)).map (fun k => i + 1 + k)

/-- `re.search(r, t)` as a Boolean: some start position admits a match. -/
def reSearch (r : RE) (t : List Char) : Bool :=
  (List.range (t.length + 1)).any (fun i => !(matchEnds r t i).isEmpty)

/-- Chain a list of regex fragments in sequence. -/
def seqs (rs : List RE) : RE :=
  rs.foldr RE.seq RE.eps

/-! ## The gazetteer (`self.uk_cities`, `self.uk_counties`)

The Python sets are embedded as the literal lists of the source; set
iteration order is unspecified in Python, so every property proved below
is insensitive to the order of these lists. -/

def uk_cities : List String :=
  ["london", "birmingham", "manchester", "glasgow", "liverpool", "leeds",
   "sheffield", "edinburgh", "bristol", "cardiff", "belfast", "newcastle",
   "leicester", "coventry", "bradford", "nottingham", "hull", "plymouth",
   "stoke-on-trent", "wolverhampton", "derby", "southampton", "portsmouth",
   "brighton", "aberdeen", "northampton", "norwich", "luton", "solihull",
   "sunderland", "poole", "milton keynes", "slough", "bournemouth", "reading",
   "peterborough", "warrington", "stockport", "rochdale", "rotherham", "oldham",
   "blackpool", "middlesbrough", "huddersfield", "oxford", "cambridge", "ipswich",
   "york", "gloucester", "watford", "chester", "exeter", "doncaster", "crawley",
   "blackburn", "basildon", "burnley", "bolton", "gillingham", "maidstone",
   "high wycombe", "worthing", "southend-on-sea", "chelmsford", "colchester",
   "preston", "st albans", "harrogate", "eastbourne", "grimsby", "bath",
   "worcester", "scunthorpe", "stevenage", "hemel hempstead", "basingstoke"]

def uk_counties : List String :=
  ["yorkshire", "lancashire", "devon", "cornwall", "dorset", "somerset", "kent",
   "sussex", "surrey", "essex", "hampshire", "berkshire", "oxfordshire",
   "buckinghamshire", "hertfordshire", "bedfordshire", "cambridgeshire", "suffolk",
   "norfolk", "lincolnshire", "nottinghamshire", "leicestershire", "warwickshire",
   "northamptonshire", "gloucestershire", "wiltshire", "worcestershire",
   "herefordshire", "shropshire", "staffordshire", "derbyshire", "cheshire",
   "merseyside", "greater manchester", "west yorkshire", "south yorkshire",
   "east yorkshire", "north yorkshire", "west midlands", "east midlands",
   "south west", "south east", "north west", "north east", "wales", "scotland",
   "northern ireland", "cumbria", "northumberland", "durham", "tyne and wear",
   "cleveland", "avon", "humberside"]

/-- The `uk_indicators` list of `_is_likely_uk_location`. -/
def uk_indicators : List String :=
  ["shire", "borough", "council", "upon", "green", "common", "heath",
   "bridge", "cross", "gate", "town", "city", "district", "ward",
   "cheshire", "gloucestershire", "worcestershire", "staffordshire",
   "derbyshire", "nottinghamshire", "leicestershire", "warwickshire"]

/-! ## The location filter (`_is_likely_uk_location`) -/

/-- The UK postcode pattern `\b[A-Z]{1,2}\d{1,2}[A-Z]?\s?\d[A-Z]{2}\b`,
searched with `re.IGNORECASE` (hence the letter classes accept both
cases). -/
def postcodeRE : RE :=
  seqs [RE.wb, RE.cls Char.isAlpha, RE.opt (RE.cls Char.isAlpha),
        RE.cls Char.isDigit, RE.opt (RE.cls Char.isDigit),
        RE.opt (RE.cls Char.isAlpha), RE.opt (RE.cls isPySpace),
        RE.cls Char.isDigit, RE.cls Char.isAlpha, RE.cls Char.isAlpha, RE.wb]

/-- `LocationExtractor._is_likely_uk_location`, as the source's chain of
early returns: gazetteer membership, then indicator substrings, then the
postcode regex, then the single-title-cased-word fallback. -/
def is_likely_uk_location (location : String) : Bool :=
  let location_lower := lowerChars location.data
  if uk_cities.any (fun c => c.data = location_lower)
      || uk_counties.any (fun c => c.data = location_lower) then true
  else if uk_indicators.any (fun ind => containsSub ind.data location_lower) then true
  else if reSearch postcodeRE location.data then true
  else if splitCount location.data false = 1 && pyIstitle location.data then true
  else false

/-! ## The role classifier (`_extract_person_role`) -/

/-- Shorthand for one-or-more whitespace, regex `\s+`. -/
def ws1 : RE := RE.plusCls isPySpace

/-- Shorthand for `[^)]*`: any run of characters other than `)`. -/
def parenBody : RE := RE.starCls (fun c => !(c = ')'))

/-- A literal regex fragment from a string (`re.escape` renders the
person's lowercased name a literal, so escaped names embed as `lit`). -/
def litS (s : String) : RE := RE.lit s.data

/-- The ordered `role_patterns` table of `_extract_person_role`; `n` is
the escaped, lowercased person name. -/
def role_patterns (n : List Char) : List (RE × String) :=
  [ -- MP patterns
    (seqs [RE.wb, RE.alt (litS "mp") (litS "member of parliament"), ws1, RE.lit n], "MP"),
    (seqs [RE.wb, RE.lit n, ws1, RE.alt (litS "mp") (litS "member of parliament"), RE.wb], "MP"),
    (seqs [RE.wb, RE.lit n, ws1, litS "(", parenBody, litS "mp", parenBody, litS ")"], "MP"),
    -- Councillor patterns
    (seqs [RE.wb, litS "councillor", ws1, RE.lit n], "Councillor"),
    (seqs [RE.wb, litS "cllr", ws1, RE.lit n], "Councillor"),
    (seqs [RE.wb, RE.lit n, ws1, RE.alt (litS "councillor") (litS "cllr"), RE.wb], "Councillor"),
    (seqs [RE.wb, RE.lit n, ws1, litS "(", parenBody, litS "councillor", parenBody, litS ")"], "Councillor"),
    (seqs [RE.wb, RE.lit n, ws1, litS "(", parenBody, litS "cllr", parenBody, litS ")"], "Councillor"),
    -- Candidate patterns
    (seqs [RE.wb, litS "candidate", ws1, RE.lit n], "Candidate"),
    (seqs [RE.wb, RE.lit n, ws1, litS "candidate", RE.wb], "Candidate"),
    (seqs [RE.wb, RE.lit n, ws1, litS "(", parenBody, litS "candidate", parenBody, litS ")"], "Candidate"),
    (seqs [RE.wb, litS "prospective", ws1, RE.opt (seqs [litS "mp", ws1]), litS "candidate", ws1, RE.lit n], "Candidate"),
    (seqs [RE.wb, RE.lit n, ws1,
           RE.alt (litS "stands") (RE.alt (litS "standing") (RE.alt (litS "runs") (litS "running"))),
           ws1, RE.alt (litS "for") (litS "as")], "Candidate"),
    -- Leader/Deputy patterns
    (seqs [RE.wb, litS "leader", ws1, RE.lit n], "Leader"),
    (seqs [RE.wb, RE.lit n, ws1, litS "leader", RE.wb], "Leader"),
    (seqs [RE.wb, litS "deputy", ws1, litS "leader", ws1, RE.lit n], "Deputy Leader"),
    (seqs [RE.wb, RE.lit n, ws1, litS "deputy", ws1, litS "leader", RE.wb], "Deputy Leader") ]

/-- The `political_keywords` list of `_extract_person_role`. -/
def political_keywords : List String :=
  ["reform uk", "reform party", "election", "constituency", "council",
   "government", "political", "parliament"]

/-- The lowercased context window of `_extract_person_role`: 100
characters before the span and 100 after, clipped to the text bounds.
(Nat subtraction makes `start_pos - 100` Python's
`max(0, start_pos - 100)`.) -/
def role_context (full_text : String) (start_pos end_pos : Nat) : List Char :=
  lowerChars (slice full_text.data (start_pos - 100)
    (min full_text.data.length (end_pos + 100) - (start_pos - 100)))

/-- `LocationExtractor._extract_person_role`: lowercased context window of
100 characters on each side of the span, first matching pattern of the
ordered table wins, then the political-keyword fallback. -/
def extract_person_role (person_name full_text : String) (start_pos end_pos : Nat) : String :=
  match (role_patterns (lowerChars person_name.data)).find?
      (fun pr => reSearch pr.1 (role_context full_text start_pos end_pos)) with
  | some pr => pr.2
  | none =>
    if political_keywords.any
        (fun k => containsSub k.data (role_context full_text start_pos end_pos)) then
      "Political Figure"
    else "Person"

/-! ## The extraction pipeline (`extract_locations_and_persons_from_text`)

The spaCy model output (`doc.ents`) and the spaCy `Matcher` output are
external inputs, so the pipeline takes them as parameters: `ents` is the
list of recognised entity spans and `matcherSpans` the list of span
texts produced by the custom UK-pattern matcher. -/

/-- A named-entity span as produced by the spaCy model: surface text,
label (`"GPE"`, `"LOC"`, `"PERSON"`, ...) and character offsets. -/
structure Ent where
  text : String
  label : String
  start_char : Nat
  end_char : Nat
deriving DecidableEq, Repr

/-- Add to a Python `set` modelled as a duplicate-free list in insertion
order (`locations.add(x)`). -/
def insertUniq (l : List String) (x : String) : List String :=
  if x ∈ l then l else l ++ [x]

/-- The named-entity loop, location half: stripped entity texts labelled
`GPE` or `LOC` that are longer than 2 characters and not all digits. -/
def ents_locations (ents : List Ent) : List String :=
  ents.foldl (fun acc ent =>
    let etext := pyStrip ent.text.data
    if etext.length ≤ 2 || pyIsDigit etext then acc
    else if ent.label = "GPE" || ent.label = "LOC" then
      insertUniq acc (String.mk etext)
    else acc) []

/-- The named-entity loop, person half: one `(name, role)` record is
appended per entity labelled `PERSON` that survives the length/digit
filter, with the role classified from the entity's context window. -/
def ents_persons (ents : List Ent) (text : String) : List (String × String) :=
  ents.filterMap (fun ent =>
    let etext := pyStrip ent.text.data
    if etext.length ≤ 2 || pyIsDigit etext then none
    else if ent.label = "PERSON" then
      some (String.mk etext, extract_person_role (String.mk etext) text ent.start_char ent.end_char)
    else none)

/-- The custom-matcher loop: stripped span texts longer than 2 characters
are added to the location set. -/
def matcher_locations (base : List String) (spans : List String) : List String :=
  spans.foldl (fun acc s =>
    let location_text := pyStrip s.data
    if 2 < location_text.length then insertUniq acc (String.mk location_text)
    else acc) base

/-- `re.search(r'\b' + re.escape(w) + r'\b', t)` for a literal `w`:
the first position where `w` occurs delimited by word boundaries. -/
def findWholeWord (w t : List Char) : Option Nat :=
  (List.range (t.length + 1)).find?
    (fun i => boundaryAt t i && sliceEq t i w && boundaryAt t (i + w.length))

/-- The gazetteer scan over one entry list (`uk_cities` / `uk_counties`):
for each entry contained in the lowercased text and found as a whole
word, the matched slice of the original text (the surface casing) is
added.  The case-insensitive search over the original text finds its
first match at the same position as the search over the lowercased text,
so the slice is taken at that position. -/
def gazetteer_add (base : List String) (entries : List String) (text : List Char) : List String :=
  entries.foldl (fun acc e =>
    if containsSub e.data (lowerChars text) then
      match findWholeWord e.data (lowerChars text) with
      | some i => insertUniq acc (String.mk (slice text i e.data.length))
      | none => acc
    else acc) base

/-- All candidate locations of one call, before the filter: named-entity
candidates, then matcher candidates, then the city scan, then the county
scan, accumulated as a Python set. -/
def collect_locations (ents : List Ent) (matcherSpans : List String) (text : String) : List String :=
  gazetteer_add
    (gazetteer_add (matcher_locations (ents_locations ents) matcherSpans) uk_cities text.data)
    uk_counties text.data

/-- `LocationExtractor.extract_locations_and_persons_from_text`: empty
text short-circuits to empty results; otherwise every collected location
candidate is passed through `_is_likely_uk_location` and the recognised
persons are returned with their classified roles. -/
def extract_locations_and_persons_from_text
    (ents : List Ent) (matcherSpans : List String) (text : String) :
    List String × List (String × String) :=
  if text = "" then ([], [])
  else ((collect_locations ents matcherSpans text).filter is_likely_uk_location,
        ents_persons ents text)

/-- `LocationExtractor.extract_locations_from_text`: the locations
component of the full pipeline. -/
def extract_locations_from_text
    (ents : List Ent) (matcherSpans : List String) (text : String) : List String :=
  (extract_locations_and_persons_from_text ents matcherSpans text).1

/-! ## The person merge of `BlueskyPostScraper.get_user_posts`

Lines 493-507 of the source: a Python dict `person_dict` is filled from
`text_persons` and then `link_persons`, preferring specific roles over
the generic `"Person"`; `all_persons` is its item list. -/

/-- Does the dict (assoc list in insertion order) hold the key? -/
def dictMem (d : List (String × String)) (k : String) : Bool :=
  d.any (fun p => p.1 = k)

/-- `person_dict[name]` as an option. -/
def dictGet (d : List (String × String)) (k : String) : Option String :=
  (d.find? (fun p => p.1 = k)).map Prod.snd

/-- `person_dict[name] = role`: replace in place if the key is present
(Python dicts keep the original insertion position), else append. -/
def dictSet (d : List (String × String)) (k v : String) : List (String × String) :=
  if dictMem d k then d.map (fun p => if p.1 = k then (k, v) else p)
  else d ++ [(k, v)]

/-- The combination loop: `text_persons` entries are written unless the
name is already present with the incoming role being the generic
`"Person"`; `link_persons` entries overwrite only a generic `"Person"`
entry and fill absent names. -/
def merge_all_persons (text_persons link_persons : List (String × String)) :
    List (String × String) :=
  let d1 := text_persons.foldl (fun d p =>
    if dictMem d p.1 = false ∨ p.2 ≠ "Person" then dictSet d p.1 p.2 else d) []
  link_persons.foldl (fun d p =>
    if dictMem d p.1 = false ∨ (dictGet d p.1 = some "Person" ∧ p.2 ≠ "Person") then
      dictSet d p.1 p.2
    else d) d1

/-! ## Spec-side restatements

These definitions follow the wording of the specification (not the
source) and exist only to be compared against the embedded source
functions above. -/

/-- Spec 4.3 step 1: lowercased candidate exactly equals a gazetteer
city or county entry. -/
def gazetteer_exact (location : String) : Bool :=
  uk_cities.any (fun c => c.data = lowerChars location.data)
    || uk_counties.any (fun c => c.data = lowerChars location.data)

/-- Spec 4.3 step 2: lowercased candidate contains a place-indicator
substring. -/
def has_place_indicator (location : String) : Bool :=
  uk_indicators.any (fun ind => containsSub ind.data (lowerChars location.data))

/-- Spec 4.3 step 3: candidate matches the national postcode regular
expression. -/
def postcode_match (location : String) : Bool :=
  reSearch postcodeRE location.data

/-- Spec 4.3 step 4: candidate is exactly one word and title-cased. -/
def single_title_word (location : String) : Bool :=
  splitCount location.data false = 1 && pyIstitle location.data

/-- Spec 4.3: the location filter as the spec's decision list, first
match wins, otherwise reject. -/
def is_plausible_location_spec (location : String) : Bool :=
  if gazetteer_exact location then true
  else if has_place_indicator location then true
  else if postcode_match location then true
  else if single_title_word location then true
  else false

/-- Spec 4.4: the MP pattern group (title-before, title-after,
parenthetical). -/
def mp_patterns (n : List Char) : List (RE × String) :=
  [(seqs [RE.wb, RE.alt (litS "mp") (litS "member of parliament"), ws1, RE.lit n], "MP"),
   (seqs [RE.wb, RE.lit n, ws1, RE.alt (litS "mp") (litS "member of parliament"), RE.wb], "MP"),
   (seqs [RE.wb, RE.lit n, ws1, litS "(", parenBody, litS "mp", parenBody, litS ")"], "MP")]

/-- Spec 4.4: the Councillor pattern group (full word and abbreviation,
before/after/parenthetical). -/
def councillor_patterns (n : List Char) : List (RE × String) :=
  [(seqs [RE.wb, litS "councillor", ws1, RE.lit n], "Councillor"),
   (seqs [RE.wb, litS "cllr", ws1, RE.lit n], "Councillor"),
   (seqs [RE.wb, RE.lit n, ws1, RE.alt (litS "councillor") (litS "cllr"), RE.wb], "Councillor"),
   (seqs [RE.wb, RE.lit n, ws1, litS "(", parenBody, litS "councillor", parenBody, litS ")"], "Councillor"),
   (seqs [RE.wb, RE.lit n, ws1, litS "(", parenBody, litS "cllr", parenBody, litS ")"], "Councillor")]

/-- Spec 4.4: the Candidate pattern group (including "prospective
candidate" and "stands/standing/runs/running for/as"). -/
def candidate_patterns (n : List Char) : List (RE × String) :=
  [(seqs [RE.wb, litS "candidate", ws1, RE.lit n], "Candidate"),
   (seqs [RE.wb, RE.lit n, ws1, litS "candidate", RE.wb], "Candidate"),
   (seqs [RE.wb, RE.lit n, ws1, litS "(", parenBody, litS "candidate", parenBody, litS ")"], "Candidate"),
   (seqs [RE.wb, litS "prospective", ws1, RE.opt (seqs [litS "mp", ws1]), litS "candidate", ws1, RE.lit n], "Candidate"),
   (seqs [RE.wb, RE.lit n, ws1,
          RE.alt (litS "stands") (RE.alt (litS "standing") (RE.alt (litS "runs") (litS "running"))),
          ws1, RE.alt (litS "for") (litS "as")], "Candidate")]

/-- Spec 4.4: the Leader pattern group. -/
def leader_patterns (n : List Char) : List (RE × String) :=
  [(seqs [RE.wb, litS "leader", ws1, RE.lit n], "Leader"),
   (seqs [RE.wb, RE.lit n, ws1, litS "leader", RE.wb], "Leader")]

/-- Spec 4.4: the Deputy Leader pattern group. -/
def deputy_leader_patterns (n : List Char) : List (RE × String) :=
  [(seqs [RE.wb, litS "deputy", ws1, litS "leader", ws1, RE.lit n], "Deputy Leader"),
   (seqs [RE.wb, RE.lit n, ws1, litS "deputy", ws1, litS "leader", RE.wb], "Deputy Leader")]

/-- Spec 4.4: the role classifier as worded by the spec: a lowercased
100-character context window, the ordered groups MP, then Councillor,
then Candidate, then Leader, then Deputy Leader with the first matching
pattern deciding, then the political-keyword fallback. -/
def classify_role_spec (person_name full_text : String) (start_pos end_pos : Nat) : String :=
  match (mp_patterns (lowerChars person_name.data)
      ++ councillor_patterns (lowerChars person_name.data)
      ++ candidate_patterns (lowerChars person_name.data)
      ++ leader_patterns (lowerChars person_name.data)
      ++ deputy_leader_patterns (lowerChars person_name.data)).find?
      (fun pr => reSearch pr.1 (role_context full_text start_pos end_pos)) with
  | some pr => pr.2
  | none =>
    if political_keywords.any
        (fun k => containsSub k.data (role_context full_text start_pos end_pos)) then
      "Political Figure"
    else "Person"

/-! ## Theorems -/

/-- C2: `_extract_person_role` evaluates the fixed ordered pattern list
over the 100-character context window and returns the tag of the first
matching pattern, with priority order exactly MP patterns, then
Councillor patterns, then Candidate patterns, then Leader, then Deputy
Leader; if no pattern matches it returns `"Political Figure"` exactly
when the lowercased window contains one of the political keywords, and
`"Person"` otherwise.  Stated as extensional equality with the
classifier restated from the spec's wording, together with concrete
behaviours exercising the priority order and both fallbacks. -/
theorem extract_person_role_matches_spec :
    (∀ (person_name full_text : String) (start_pos end_pos : Nat),
      extract_person_role person_name full_text start_pos end_pos =
        classify_role_spec person_name full_text start_pos end_pos) ∧
    extract_person_role "Jane Doe" "Councillor Jane Doe MP" 11 19 = "MP" ∧
    extract_person_role "Jane Doe" "Councillor Jane Doe spoke" 11 19 = "Councillor" ∧
    extract_person_role "Jane Doe" "Jane Doe at the election" 0 8 = "Political Figure" ∧
    extract_person_role "Jane Doe" "Jane Doe smiled" 0 8 = "Person" :=
  ⟨fun _ _ _ _ => rfl, by decide, by decide, by decide, by decide⟩

/-- C4: `_is_likely_uk_location` decides acceptance in a fixed order
with first match winning: gazetteer equality, then indicator substring,
then the national postcode regular expression, then the
one-title-cased-word fallback, otherwise reject; in particular the
literal `"SW1A 1AA"` is accepted (by the postcode step). -/
theorem is_likely_uk_location_decision_order :
    (∀ location : String,
      is_likely_uk_location location = is_plausible_location_spec location) ∧
    is_likely_uk_location "SW1A 1AA" = true :=
  ⟨fun _ => rfl, by decide⟩

/-- C9: for empty input text both extraction entry points return empty
results (whatever the external recognizer and matcher would have
produced). -/
theorem extract_empty_text (ents : List Ent) (matcherSpans : List String) :
    extract_locations_and_persons_from_text ents matcherSpans "" = ([], []) ∧
    extract_locations_from_text ents matcherSpans "" = [] :=
  ⟨rfl, rfl⟩

/-- C10: `extract_locations_from_text` is observationally the locations
component of `extract_locations_and_persons_from_text` on every input. -/
theorem extract_locations_from_text_eq_fst
    (ents : List Ent) (matcherSpans : List String) (text : String) :
    extract_locations_from_text ents matcherSpans text =
      (extract_locations_and_persons_from_text ents matcherSpans text).1 :=
  rfl

theorem mem_insertUniq {l : List String} {x y : String} :
    x ∈ insertUniq l y ↔ x ∈ l ∨ x = y := by
  unfold insertUniq
  split
  · rename_i hy
    constructor
    · exact fun h => Or.inl h
    · rintro (h | rfl)
      · exact h
      · exact hy
  · simp

theorem gazetteer_add_cons (base : List String) (e : String) (es : List String)
    (t : List Char) :
    gazetteer_add base (e :: es) t =
      gazetteer_add
        (if containsSub e.data (lowerChars t) then
          match findWholeWord e.data (lowerChars t) with
          | some i => insertUniq base (String.mk (slice t i e.data.length))
          | none => base
         else base) es t :=
  rfl

theorem mem_gazetteer_add_of_mem {base entries : List String} {t : List Char} {x : String}
    (h : x ∈ base) : x ∈ gazetteer_add base entries t := by
  induction entries generalizing base with
  | nil => exact h
  | cons e es ih =>
    rw [gazetteer_add_cons]
    apply ih
    split
    · split
      · exact mem_insertUniq.mpr (Or.inl h)
      · exact h
    · exact h

/-- Everything the gazetteer scan adds beyond its input set is the
surface slice of a whole-word match of some gazetteer entry. -/
theorem mem_gazetteer_add {base entries : List String} {t : List Char} {x : String}
    (h : x ∈ gazetteer_add base entries t) :
    x ∈ base ∨ ∃ e ∈ entries, ∃ i, findWholeWord e.data (lowerChars t) = some i ∧
      x = String.mk (slice t i e.data.length) := by
  induction entries generalizing base with
  | nil => exact Or.inl h
  | cons e es ih =>
    rw [gazetteer_add_cons] at h
    rcases ih h with h' | ⟨e', he', i, hfind, hx⟩
    · split at h'
      · split at h'
        · rename_i i hfind
          rcases mem_insertUniq.mp h' with hb | hx
          · exact Or.inl hb
          · exact Or.inr ⟨e, List.mem_cons_self e es, i, hfind, hx⟩
        · exact Or.inl h'
      · exact Or.inl h'
    · exact Or.inr ⟨e', List.mem_cons_of_mem e he', i, hfind, hx⟩

theorem mem_gazetteer_add_of_found {b l : List String} {t : List Char}
    {e : String} {i : Nat} (he : e ∈ l)
    (hc : containsSub e.data (lowerChars t) = true)
    (hf : findWholeWord e.data (lowerChars t) = some i) :
    String.mk (slice t i e.data.length) ∈ gazetteer_add b l t := by
  induction l generalizing b with
  | nil => cases he
  | cons e' es ih =>
    rw [gazetteer_add_cons]
    rcases List.mem_cons.mp he with rfl | he'
    · apply mem_gazetteer_add_of_mem
      rw [if_pos hc, hf]
      exact mem_insertUniq.mpr (Or.inr rfl)
    · exact ih he'

theorem findWholeWord_slice {w t : List Char} {i : Nat}
    (h : findWholeWord w t = some i) : slice t i w.length = w := by
  have hp := List.find?_some h
  simp only [Bool.and_eq_true, sliceEq, decide_eq_true_eq] at hp
  exact hp.1.2

theorem lowerChars_slice (t : List Char) (i n : Nat) :
    slice (lowerChars t) i n = lowerChars (slice t i n) := by
  simp [slice, lowerChars, List.map_take, List.map_drop]

/-- C1: every string in the locations component of
`extract_locations_and_persons_from_text` passes
`_is_likely_uk_location`: no candidate from the recognizer, the matcher
or the gazetteer scan reaches the output without being accepted by the
filter. -/
theorem extract_locations_pass_filter (ents : List Ent) (matcherSpans : List String)
    (text : String) (l : String)
    (h : l ∈ (extract_locations_and_persons_from_text ents matcherSpans text).1) :
    is_likely_uk_location l = true := by
  unfold extract_locations_and_persons_from_text at h
  split at h
  · simp at h
  · exact (List.mem_filter.mp h).2

/-- Witness for C1 at a concrete run: `"Leeds"` is returned by the
pipeline on the text `"Leeds"` and indeed passes the filter. -/
theorem extract_locations_pass_filter_witness :
    is_likely_uk_location "Leeds" = true :=
  extract_locations_pass_filter [] [] "Leeds" "Leeds" (by decide)

/-- C5: the gazetteer scan is word-boundary safe.  If `"doncaster"` has
no whole-word occurrence in the lowercased text, the two gazetteer
scanning stages add no `"Doncaster"` entry (any member of their output
was already in the input set); concretely, the pipeline output on
`"Doncasterish is nice"` does not contain `"Doncaster"`. -/
theorem gazetteer_word_boundary_safe :
    (∀ (t : String) (base : List String),
      findWholeWord ("doncaster".data) (lowerChars t.data) = none →
      "Doncaster" ∈ gazetteer_add (gazetteer_add base uk_cities t.data) uk_counties t.data →
      "Doncaster" ∈ base) ∧
    "Doncaster" ∉ extract_locations_from_text [] [] "Doncasterish is nice" := by
  constructor
  · intro t base hnone hmem
    have hstage : ∀ {b : List String} {entries : List String},
        "Doncaster" ∈ gazetteer_add b entries t.data → "Doncaster" ∈ b := by
      intro b entries hm
      rcases mem_gazetteer_add hm with hb | ⟨e, _, i, hf, hx⟩
      · exact hb
      · exfalso
        have hdata : slice t.data i e.data.length = "Doncaster".data :=
          congrArg String.data hx.symm
        have hlow : slice (lowerChars t.data) i e.data.length = e.data :=
          findWholeWord_slice hf
        have hed : e.data = "doncaster".data := by
          rw [lowerChars_slice, hdata] at hlow
          exact hlow.symm
        rw [hed] at hf
        rw [hf] at hnone
        cases hnone
    exact hstage (hstage hmem)
  · decide

/-- Witness for C5 at a concrete input: no whole-word `"doncaster"`
occurs in `"Doncasterish is nice"`, so the gazetteer stages starting
from the empty set do not produce `"Doncaster"`. -/
theorem gazetteer_word_boundary_safe_witness :
    "Doncaster" ∉
      gazetteer_add (gazetteer_add [] uk_cities ("Doncasterish is nice".data))
        uk_counties ("Doncasterish is nice".data) := by
  intro hmem
  have h := gazetteer_word_boundary_safe.1 "Doncasterish is nice" [] (by decide) hmem
  simp at h

/-- C6: on the text `"I visited Sheffield yesterday."` the
locations-only entry point includes `"Sheffield"`, whatever the external
recognizer and matcher contribute: the whole-word case-insensitive
gazetteer scan finds it at offset 10, re-emits the surface casing, and
the filter accepts it by gazetteer membership. -/
theorem extract_includes_sheffield (ents : List Ent) (matcherSpans : List String) :
    "Sheffield" ∈ extract_locations_from_text ents matcherSpans
      "I visited Sheffield yesterday." := by
  unfold extract_locations_from_text extract_locations_and_persons_from_text
  rw [if_neg (by decide)]
  show "Sheffield" ∈ List.filter is_likely_uk_location _
  apply List.mem_filter.mpr
  refine ⟨?_, by decide⟩
  unfold collect_locations
  apply mem_gazetteer_add_of_mem
  have hfound := mem_gazetteer_add_of_found
    (b := matcher_locations (ents_locations ents) matcherSpans) (l := uk_cities)
    (t := "I visited Sheffield yesterday.".data) (e := "sheffield") (i := 10)
    (by decide) (by decide) (by decide)
  have hmk : String.mk (slice ("I visited Sheffield yesterday.".data) 10
      ("sheffield".data.length)) = "Sheffield" := by decide
  rwa [hmk] at hfound

theorem dictMem_nil (n : String) : dictMem [] n = false :=
  rfl

theorem dictMem_singleton (n r : String) : dictMem [(n, r)] n = true := by
  simp [dictMem]

theorem dictSet_nil (n v : String) : dictSet [] n v = [(n, v)] := by
  simp [dictSet, dictMem]

theorem dictSet_singleton (n r v : String) : dictSet [(n, r)] n v = [(n, v)] := by
  simp [dictSet, dictMem]

theorem dictGet_singleton (n r : String) : dictGet [(n, r)] n = some r := by
  simp [dictGet]

/-- C3: merging person findings from the two text sources keeps, for a
name present in both with different roles, whichever role is not the
generic `"Person"`; two `"Person"` entries stay `"Person"`; in
particular `{"Jane Doe": "Person"}` merged with `{"Jane Doe": "MP"}`
gives `{"Jane Doe": "MP"}`. -/
theorem merge_persons_conflict_resolution :
    (∀ n r : String, r ≠ "Person" →
      merge_all_persons [(n, "Person")] [(n, r)] = [(n, r)]) ∧
    (∀ n r : String, r ≠ "Person" →
      merge_all_persons [(n, r)] [(n, "Person")] = [(n, r)]) ∧
    (∀ n : String, merge_all_persons [(n, "Person")] [(n, "Person")] = [(n, "Person")]) ∧
    merge_all_persons [("Jane Doe", "Person")] [("Jane Doe", "MP")] =
      [("Jane Doe", "MP")] := by
  refine ⟨?_, ?_, ?_, by decide⟩
  · intro n r hr
    unfold merge_all_persons
    simp only [List.foldl_cons, List.foldl_nil]
    rw [if_pos (Or.inl (dictMem_nil n)), dictSet_nil,
        if_pos (Or.inr ⟨dictGet_singleton n "Person", hr⟩), dictSet_singleton]
  · intro n r hr
    unfold merge_all_persons
    simp only [List.foldl_cons, List.foldl_nil]
    rw [if_pos (Or.inl (dictMem_nil n)), dictSet_nil, if_neg ?_]
    rintro (hm | ⟨hg, _⟩)
    · rw [dictMem_singleton] at hm
      cases hm
    · rw [dictGet_singleton] at hg
      exact hr (Option.some.injEq r "Person" ▸ hg)
  · intro n
    unfold merge_all_persons
    simp only [List.foldl_cons, List.foldl_nil]
    rw [if_pos (Or.inl (dictMem_nil n)), dictSet_nil, if_neg ?_]
    rintro (hm | ⟨_, hne⟩)
    · rw [dictMem_singleton] at hm
      cases hm
    · exact hne rfl

/-- Witness for C3: both conflict directions and the agreeing case at
concrete names and roles. -/
theorem merge_persons_conflict_resolution_witness :
    merge_all_persons [("A", "Person")] [("A", "MP")] = [("A", "MP")] ∧
    merge_all_persons [("B", "Councillor")] [("B", "Person")] = [("B", "Councillor")] ∧
    merge_all_persons [("C", "Person")] [("C", "Person")] = [("C", "Person")] :=
  ⟨merge_persons_conflict_resolution.1 "A" "MP" (by decide),
   merge_persons_conflict_resolution.2.1 "B" "Councillor" (by decide),
   merge_persons_conflict_resolution.2.2.1 "C"⟩

/-- C7 counterexample: the per-source persons output is a list with one
record per recognized person span, so a name recognized twice occurs
twice — it is not a mapping from name to role.  Two `PERSON` spans
reading `"John Smith"` in `"John Smith and John Smith."` yield two
entries with the same name. -/
theorem persons_per_source_duplicate_names :
    ¬ (((extract_locations_and_persons_from_text
          [Ent.mk "John Smith" "PERSON" 0 10, Ent.mk "John Smith" "PERSON" 15 25]
          [] "John Smith and John Smith.").2.map Prod.fst).Nodup) := by
  decide

theorem map_fst_dict_replace (d : List (String × String)) (k v : String) :
    ((d.map (fun p => if p.1 = k then (k, v) else p)).map Prod.fst) = d.map Prod.fst := by
  induction d with
  | nil => rfl
  | cons p ps ih =>
    simp only [List.map_cons, ih]
    by_cases h : p.1 = k
    · simp [h]
    · simp [h]

theorem dictMem_iff {d : List (String × String)} {k : String} :
    dictMem d k = true ↔ k ∈ d.map Prod.fst := by
  simp [dictMem, List.any_eq_true, List.mem_map]

theorem dictSet_nodup {d : List (String × String)} {k v : String}
    (h : (d.map Prod.fst).Nodup) : ((dictSet d k v).map Prod.fst).Nodup := by
  unfold dictSet
  split
  · rwa [map_fst_dict_replace]
  · rename_i hmem
    rw [List.map_append]
    refine List.nodup_append.mpr ⟨h, List.nodup_singleton k, ?_⟩
    intro a ha ha'
    simp only [List.map_cons, List.map_nil, List.mem_singleton] at ha'
    subst ha'
    exact hmem (dictMem_iff.mpr ha)

theorem foldl_dict_nodup
    (f : List (String × String) → String × String → List (String × String))
    (hf : ∀ d p, (d.map Prod.fst).Nodup → ((f d p).map Prod.fst).Nodup)
    (l : List (String × String)) (d : List (String × String))
    (h : (d.map Prod.fst).Nodup) : ((l.foldl f d).map Prod.fst).Nodup := by
  induction l generalizing d with
  | nil => exact h
  | cons p ps ih => exact ih (f d p) (hf d p h)

/-- C7 amended: the per-source persons component is a list with one
record per recognized person span (so a name may recur per source, as
the counterexample shows); the name-to-role mapping view is the merged
`all_persons` of `get_user_posts`, whose names are pairwise distinct for
all inputs. -/
theorem merged_persons_names_nodup (tp lp : List (String × String)) :
    ((merge_all_persons tp lp).map Prod.fst).Nodup := by
  unfold merge_all_persons
  apply foldl_dict_nodup
  · intro d p h
    dsimp only
    split
    · exact dictSet_nodup h
    · exact h
  · apply foldl_dict_nodup
    · intro d p h
      dsimp only
      split
      · exact dictSet_nodup h
      · exact h
    · simp

theorem classify_result_mem_tags (table : List (RE × String)) (ctx : List Char)
    (tags : List String) (htag : ∀ pr ∈ table, pr.2 ∈ tags)
    (h1 : "Political Figure" ∈ tags) (h2 : "Person" ∈ tags) :
    (match table.find? (fun pr => reSearch pr.1 ctx) with
     | some pr => pr.2
     | none =>
       if political_keywords.any (fun k => containsSub k.data ctx) then "Political Figure"
       else "Person") ∈ tags := by
  cases hf : table.find? (fun pr => reSearch pr.1 ctx) with
  | some pr => exact htag pr (List.mem_of_find?_eq_some hf)
  | none =>
    simp only []
    split
    · exact h1
    · exact h2

theorem role_patterns_tags (n : List Char) :
    ∀ pr ∈ role_patterns n,
      pr.2 ∈ (["MP", "Councillor", "Candidate", "Leader", "Deputy Leader",
               "Political Figure", "Person"] : List String) := by
  intro pr h
  simp only [role_patterns, List.mem_cons, List.not_mem_nil, or_false] at h
  rcases h with rfl | rfl | rfl | rfl | rfl | rfl | rfl | rfl | rfl | rfl | rfl
    | rfl | rfl | rfl | rfl | rfl | rfl <;> simp

/-- C8: the person's name is inserted into every role pattern as an
escaped literal (constructor `RE.lit`), so classification is total for
every name — including names containing regex metacharacters — and
always lands in the closed tag set; concretely the name `"J. (Doe)"`,
full of metacharacters, classifies without failure. -/
theorem extract_person_role_total_range :
    (∀ (person_name full_text : String) (start_pos end_pos : Nat),
      extract_person_role person_name full_text start_pos end_pos ∈
        ["MP", "Councillor", "Candidate", "Leader", "Deputy Leader",
         "Political Figure", "Person"]) ∧
    extract_person_role "J. (Doe)" "Councillor J. (Doe) spoke" 11 19 = "Councillor" := by
  constructor
  · intro pn ft s e
    exact classify_result_mem_tags (role_patterns (lowerChars pn.data))
      (role_context ft s e) _ (role_patterns_tags (lowerChars pn.data))
      (by simp) (by simp)
  · decide

end BskyScraper
